import Mathlib

/-
  Shallow embedding of the my-trading-journey trading-journal bot.

  Conventions of the embedding:
  * Python floats are modelled as exact rationals (ℚ);
  * Python None / nullable columns are modelled with Option;
  * SQLAlchemy rows are Lean structures, and the database session is an
    explicit record of lists threaded through each handler;
  * fallible parsing (int(), float()) is modelled by Option-returning
    parse functions covering the plain decimal forms.
-/

set_option allowUnsafeReducibility true

attribute [local semireducible] Rat.add Rat.mul Rat.inv Rat.sub Rat.ofScientific

namespace TradingJournal

/-- models.Trade: one row of the trades table; profit_loss is the nullable
calculated P/L column, date is kept as its ISO string form. -/
structure Trade where
  id : Nat
  user_id : Nat
  date : String
  pair_traded : String
  stop_loss : ℚ
  take_profit : ℚ
  result : String
  screenshot_id : Option String
  notes : String
  profit_loss : Option ℚ
deriving DecidableEq, Repr

/-- analytics.calculate_stats test
`t.result == 'Breakeven' and t.profit_loss is not None and t.profit_loss > 0`. -/
def profitableBE (t : Trade) : Bool :=
  t.result == ("Breakeven") &&
    (match t.profit_loss with
     | some p => decide (0 < p)
     | none => false)

/-- analytics.calculate_stats test
`t.result == 'Breakeven' and t.profit_loss is not None and t.profit_loss < 0`. -/
def unprofitableBE (t : Trade) : Bool :=
  t.result == ("Breakeven") &&
    (match t.profit_loss with
     | some p => decide (p < 0)
     | none => false)

/-- `wins = sum(1 for t in trades if t.result == 'Win')` -/
def wins (trades : List Trade) : Nat :=
  trades.countP (fun t => t.result == ("Win"))

/-- `losses = sum(1 for t in trades if t.result == 'Loss')` -/
def losses (trades : List Trade) : Nat :=
  trades.countP (fun t => t.result == ("Loss"))

/-- `breakevens = sum(1 for t in trades if t.result == 'Breakeven')` -/
def breakevens (trades : List Trade) : Nat :=
  trades.countP (fun t => t.result == ("Breakeven"))

/-- `profitable_be` count in calculate_stats. -/
def profitable_be (trades : List Trade) : Nat :=
  trades.countP profitableBE

/-- `unprofitable_be` count in calculate_stats. -/
def unprofitable_be (trades : List Trade) : Nat :=
  trades.countP unprofitableBE

/-- `effective_wins = wins + <profitable breakeven count>` -/
def effective_wins (trades : List Trade) : Nat :=
  wins trades + profitable_be trades

/-- `effective_losses = losses + <unprofitable breakeven count>` -/
def effective_losses (trades : List Trade) : Nat :=
  losses trades + unprofitable_be trades

/-- `counted_trades = wins + losses` then `counted_trades += profitable_be + unprofitable_be` -/
def counted_trades (trades : List Trade) : Nat :=
  wins trades + losses trades + (profitable_be trades + unprofitable_be trades)

/-- the local variable `win_rate` in calculate_stats:
`(effective_wins / counted_trades) * 100` guarded by `if counted_trades > 0`. -/
def win_rate (trades : List Trade) : ℚ :=
  if 0 < counted_trades trades then
    ((effective_wins trades : ℚ) / (counted_trades trades : ℚ)) * 100
  else 0

/-- the local variable `loss_rate` in calculate_stats. -/
def loss_rate (trades : List Trade) : ℚ :=
  if 0 < counted_trades trades then
    ((effective_losses trades : ℚ) / (counted_trades trades : ℚ)) * 100
  else 0

/-- `sum(t.profit_loss or 0 for t in trades)` (null P/L contributes 0;
the `or 0` also sends an exact 0.0 to 0, which is the same value). -/
def net_profit_loss (trades : List Trade) : ℚ :=
  (trades.map (fun t => t.profit_loss.getD 0)).sum

/-- `win_trades` filter in calculate_stats: Win trades with non-null P/L
together with profitable breakevens. -/
def win_trades (trades : List Trade) : List Trade :=
  trades.filter (fun t =>
    (t.result == ("Win") && t.profit_loss.isSome) || profitableBE t)

/-- `loss_trades` filter in calculate_stats: Loss trades with non-null P/L
together with unprofitable breakevens. -/
def loss_trades (trades : List Trade) : List Trade :=
  trades.filter (fun t =>
    (t.result == ("Loss") && t.profit_loss.isSome) || unprofitableBE t)

/-- `sum(t.profit_loss for t in l)` over a list whose members all have
non-null P/L (getD 0 is the identity on them). -/
def plSum (l : List Trade) : ℚ :=
  (l.map (fun t => t.profit_loss.getD 0)).sum

/-- `avg_win = sum(...) / len(win_trades) if win_trades else 0` -/
def avg_win (trades : List Trade) : ℚ :=
  if win_trades trades ≠ [] then
    plSum (win_trades trades) / ((win_trades trades).length : ℚ)
  else 0

/-- `avg_loss = abs(sum(...) / len(loss_trades)) if loss_trades else 0` -/
def avg_loss (trades : List Trade) : ℚ :=
  if loss_trades trades ≠ [] then
    |plSum (loss_trades trades) / ((loss_trades trades).length : ℚ)|
  else 0

/-- `risk_reward_ratio = avg_win / avg_loss if avg_loss > 0 else 0` -/
def risk_reward_ratio (trades : List Trade) : ℚ :=
  if 0 < avg_loss trades then avg_win trades / avg_loss trades else 0

/-- one update step of the `pair_counts` defaultdict, preserving Python
dict insertion order. -/
def bumpCount (acc : List (String × Nat)) (p : String) : List (String × Nat) :=
  if acc.any (fun q => q.1 == p) then
    acc.map (fun q => if q.1 == p then (q.1, q.2 + 1) else q)
  else acc ++ [(p, 1)]

/-- `pair_counts[trade.pair_traded] += 1` over all trades. -/
def pair_counts (trades : List Trade) : List (String × Nat) :=
  trades.foldl (fun acc t => bumpCount acc t.pair_traded) []

/-- Python max(key=...): first maximal element in iteration order
(an element replaces the running maximum only when strictly greater). -/
def pyMaxBy {α β : Type} [LinearOrder β] (key : α → β) : List α → Option α
  | [] => none
  | x :: xs => some (xs.foldl (fun b a => if key b < key a then a else b) x)

/-- Python min(key=...): first minimal element in iteration order. -/
def pyMinBy {α β : Type} [LinearOrder β] (key : α → β) : List α → Option α
  | [] => none
  | x :: xs => some (xs.foldl (fun b a => if key a < key b then a else b) x)

/-- `most_traded_pair = max(pair_counts.items(), key=...)[0] if pair_counts else 'None'` -/
def most_traded_pair (trades : List Trade) : String :=
  match pyMaxBy (fun q : String × Nat => q.2) (pair_counts trades) with
  | some q => q.1
  | none => "None"

/-- the per-pair accumulator of `pair_performance`. -/
structure PairPerf where
  profit_loss : ℚ
  count : Nat
deriving DecidableEq, Repr

/-- one update step of `pair_performance` for a trade with non-null P/L v. -/
def bumpPerf (acc : List (String × PairPerf)) (p : String) (v : ℚ) :
    List (String × PairPerf) :=
  if acc.any (fun q => q.1 == p) then
    acc.map (fun q =>
      if q.1 == p then
        (q.1, { profit_loss := q.2.profit_loss + v, count := q.2.count + 1 })
      else q)
  else acc ++ [(p, { profit_loss := v, count := 1 })]

/-- `pair_performance` accumulation over trades with non-null P/L. -/
def pair_performance (trades : List Trade) : List (String × PairPerf) :=
  trades.foldl (fun acc t =>
    match t.profit_loss with
    | some v => bumpPerf acc t.pair_traded v
    | none => acc) []

/-- the per-pair `avg` computed in calculate_stats (`profit_loss / count`,
0 when the count is 0). -/
def perfAvg (pp : PairPerf) : ℚ :=
  if 0 < pp.count then pp.profit_loss / (pp.count : ℚ) else 0

/-- `qualified_pairs = {k: v for ... if v['count'] >= 2}` -/
def qualified_pairs (trades : List Trade) : List (String × PairPerf) :=
  (pair_performance trades).filter (fun q => 2 ≤ q.2.count)

/-- `best_pair = max(qualified_pairs.items(), key=avg)[0] if qualified_pairs else 'None'` -/
def best_pair (trades : List Trade) : String :=
  match pyMaxBy (fun q : String × PairPerf => perfAvg q.2) (qualified_pairs trades) with
  | some q => q.1
  | none => "None"

/-- `worst_pair = min(qualified_pairs.items(), key=avg)[0] if qualified_pairs else 'None'` -/
def worst_pair (trades : List Trade) : String :=
  match pyMinBy (fun q : String × PairPerf => perfAvg q.2) (qualified_pairs trades) with
  | some q => q.1
  | none => "None"

/-- round-half-to-even to an integer, modelling Python round() on the
rational values standing in for floats. -/
def roundHalfEven (x : ℚ) : ℤ :=
  if x - (⌊x⌋ : ℚ) < 1/2 then ⌊x⌋
  else if (1 : ℚ)/2 < x - (⌊x⌋ : ℚ) then ⌊x⌋ + 1
  else if ⌊x⌋ % 2 = 0 then ⌊x⌋ else ⌊x⌋ + 1

/-- `round(x, 2)` -/
def round2 (x : ℚ) : ℚ := ((roundHalfEven (x * 100) : ℤ) : ℚ) / 100

/-- the dict returned by analytics.calculate_stats.  The empty-trade-set
branch of the source omits the effective_wins / effective_losses keys;
they are modelled as 0 there. -/
structure Stats where
  total_trades : Nat
  wins : Nat
  losses : Nat
  breakevens : Nat
  effective_wins : Nat
  effective_losses : Nat
  win_rate : ℚ
  loss_rate : ℚ
  net_profit_loss : ℚ
  avg_win : ℚ
  avg_loss : ℚ
  risk_reward_ratio : ℚ
  most_traded_pair : String
  best_pair : String
  worst_pair : String
deriving DecidableEq, Repr

/-- analytics.calculate_stats on the user's trade list (the DB query result). -/
def calculate_stats (trades : List Trade) : Stats :=
  if trades.isEmpty then
    { total_trades := 0, wins := 0, losses := 0, breakevens := 0
      effective_wins := 0, effective_losses := 0
      win_rate := 0, loss_rate := 0, net_profit_loss := 0
      avg_win := 0, avg_loss := 0, risk_reward_ratio := 0
      most_traded_pair := "None", best_pair := "None", worst_pair := "None" }
  else
    { total_trades := trades.length
      wins := wins trades
      losses := losses trades
      breakevens := breakevens trades
      effective_wins := effective_wins trades
      effective_losses := effective_losses trades
      win_rate := round2 (win_rate trades)
      loss_rate := round2 (loss_rate trades)
      net_profit_loss := net_profit_loss trades
      avg_win := avg_win trades
      avg_loss := avg_loss trades
      risk_reward_ratio := risk_reward_ratio trades
      most_traded_pair := most_traded_pair trades
      best_pair := best_pair trades
      worst_pair := worst_pair trades }

/-! Character-list string primitives.  The handlers use str.strip,
str.split, str.replace, str.startswith, str.upper and str.lower; these
are modelled structurally over the character list of the string so that
every concrete evaluation is kernel-reducible. -/

/-- structural model of str.startswith on character lists. -/
def isPrefixOfChars : List Char → List Char → Bool
  | [], _ => true
  | _ :: _, [] => false
  | a :: as, b :: bs => a == b && isPrefixOfChars as bs

/-- worker for splitString. -/
def splitOnCharAux (sep : Char) (acc : List Char) : List Char → List (List Char)
  | [] => [acc.reverse]
  | c :: rest =>
    if c == sep then acc.reverse :: splitOnCharAux sep [] rest
    else splitOnCharAux sep (c :: acc) rest

/-- structural model of str.split(sep) for the one-character separators
the handlers use. -/
def splitString (sep : Char) (s : String) : List String :=
  (splitOnCharAux sep [] s.data).map String.mk

/-- structural model of str.strip(): the character list with surrounding
whitespace removed. -/
def pyStrip (s : String) : List Char :=
  ((s.data.dropWhile Char.isWhitespace).reverse.dropWhile Char.isWhitespace).reverse

/-- worker for pyReplace; the fuel bounds the number of consumed
characters, so the initial length of the list suffices. -/
def replaceAllAux (old new : List Char) : Nat → List Char → List Char
  | _, [] => []
  | 0, l => l
  | fuel + 1, c :: rest =>
    if isPrefixOfChars old (c :: rest) then
      new ++ replaceAllAux old new fuel ((c :: rest).drop old.length)
    else c :: replaceAllAux old new fuel rest

/-- structural model of str.replace(old, new) for non-empty old:
every non-overlapping occurrence, scanned from the left, is replaced. -/
def pyReplace (s old new : String) : String :=
  String.mk (replaceAllAux old.data new.data s.data.length s.data)

/-- structural model of str.startswith on strings. -/
def pyStartsWith (s pre : String) : Bool :=
  isPrefixOfChars pre.data s.data

/-- structural model of str.upper(). -/
def pyUpper (s : String) : String :=
  String.mk (s.data.map Char.toUpper)

/-- structural model of str.lower(). -/
def pyLower (s : String) : String :=
  String.mk (s.data.map Char.toLower)

/-! Parsing of user text input, modelling Python int() / float() on the
plain decimal forms the bot's prompts ask for (the exponent / inf / nan
float literal forms are not modelled; no claim involves them). -/

/-- value of a non-empty all-digit character list. -/
def digitsToNat? (l : List Char) : Option Nat :=
  if l ≠ [] ∧ l.all Char.isDigit then
    some (l.foldl (fun n c => 10 * n + (c.toNat - 48)) 0)
  else none

/-- model of Python `int(s)`: optional surrounding whitespace, optional
sign, then a non-empty digit string; anything else raises ValueError,
i.e. yields none. -/
def pyParseInt (s : String) : Option Int :=
  match pyStrip s with
  | '+' :: rest => (digitsToNat? rest).map (fun n => (n : Int))
  | '-' :: rest => (digitsToNat? rest).map (fun n => -(n : Int))
  | l => (digitsToNat? l).map (fun n => (n : Int))

/-- value of a possibly-empty all-digit character list (fraction part). -/
def digitsVal (l : List Char) : ℚ :=
  (l.foldl (fun n c => 10 * n + (c.toNat - 48)) 0 : ℚ)

/-- unsigned decimal core of a Python float literal: digits with at most
one dot and at least one digit overall ("1", "1.5", "1.", ".5"). -/
def decimalCore (l : List Char) : Option ℚ :=
  match splitOnCharAux '.' [] l with
  | [ip] => (digitsToNat? ip).map (fun n => (n : ℚ))
  | [ip, fp] =>
    if (ip.all Char.isDigit ∧ fp.all Char.isDigit) ∧ (ip ≠ [] ∨ fp ≠ []) then
      some (digitsVal ip + digitsVal fp / (10 : ℚ) ^ fp.length)
    else none
  | _ => none

/-- model of Python `float(s)` on plain decimal forms. -/
def pyParseFloat (s : String) : Option ℚ :=
  match pyStrip s with
  | '+' :: rest => decimalCore rest
  | '-' :: rest => (decimalCore rest).map (fun q => -q)
  | l => decimalCore l

/-! The conversation state store (states.py) and the rest of the data
model (app/models.py). -/

/- the step-name constants of states.REGISTRATION_STATES. -/
namespace REGISTRATION_STATES

def FULL_NAME : String := "registration_full_name"

def AGE : String := "registration_age"

def TRADING_YEARS : String := "registration_trading_years"

def EXPERIENCE : String := "registration_experience"

def ACCOUNT_TYPE : String := "registration_account_type"

def PHASE : String := "registration_phase"

def PROFIT_TARGET : String := "registration_profit_target"

def INITIAL_BALANCE : String := "registration_initial_balance"

end REGISTRATION_STATES

/- the step-name constants of states.JOURNAL_STATES (BREAKEVEN_AMOUNT is
used by handlers.py alongside the ones listed in states.py). -/
namespace JOURNAL_STATES

def DATE : String := "journal_date"

def PAIR : String := "journal_pair"

def SL : String := "journal_sl"

def TP : String := "journal_tp"

def RESULT : String := "journal_result"

def BREAKEVEN_AMOUNT : String := "journal_breakeven_amount"

def SCREENSHOT : String := "journal_screenshot"

def NOTES : String := "journal_notes"

end JOURNAL_STATES

/-- models.User: the nullable profile columns collected during
registration plus the balance columns. -/
structure UserRec where
  id : Nat
  telegram_id : Int
  full_name : Option String := none
  age : Option Int := none
  trading_years : Option ℚ := none
  experience_level : Option String := none
  account_type : Option String := none
  phase : Option String := none
  profit_target : Option ℚ := none
  initial_balance : Option ℚ := none
  current_balance : Option ℚ := none
  registration_complete : Bool := false
deriving DecidableEq, Repr

/-- the JSON dict stored in UserState.data, as the record of the keys the
modelled flows write into it. -/
structure StateData where
  date : Option String := none
  pair : Option String := none
  stop_loss : Option ℚ := none
  take_profit : Option ℚ := none
  result : Option String := none
  breakeven_amount : Option ℚ := none
  screenshot_id : Option String := none
  notes : Option String := none
  trade_id : Option Int := none
  field : Option String := none
deriving DecidableEq, Repr

/-- models.UserState: one conversation-state row (data column nullable). -/
structure UserStateRec where
  user_id : Nat
  state : String
  data : Option StateData := none
deriving DecidableEq, Repr

/-- UserState.get_data: deserialized data, `{}` when the column is null. -/
def UserStateRec.get_data (s : UserStateRec) : StateData :=
  s.data.getD {}

/-- the database session: users, trades and user_states tables plus the
autoincrement counters for the two id columns the handlers create. -/
structure Db where
  users : List UserRec := []
  trades : List Trade := []
  states : List UserStateRec := []
  next_user_id : Nat := 1
  next_trade_id : Nat := 1
deriving DecidableEq, Repr

/-- update the first element satisfying p (SQLAlchemy mutation of the row
returned by .first()). -/
def updateFirst {α : Type} (p : α → Bool) (f : α → α) : List α → List α
  | [] => []
  | x :: xs => if p x then f x :: xs else x :: updateFirst p f xs

/-- remove the first element satisfying p (session.delete of the row
returned by .first()). -/
def removeFirst {α : Type} (p : α → Bool) : List α → List α
  | [] => []
  | x :: xs => if p x then xs else x :: removeFirst p xs

/-- states.get_user_state: `UserState.query.filter_by(user_id=...).first()`. -/
def get_user_state (db : Db) (user_id : Nat) : Option UserStateRec :=
  db.states.find? (fun s => s.user_id == user_id)

/-- states.set_user_state: upsert of the state row; the data column is
written only when a data argument is passed (`if data is not None`). -/
def set_user_state (db : Db) (user_id : Nat) (state : String)
    (data : Option StateData) : Db :=
  match db.states.find? (fun s => s.user_id == user_id) with
  | none =>
    { db with states := db.states ++ [{ user_id := user_id, state := state, data := data }] }
  | some _ =>
    let f : UserStateRec → UserStateRec := fun s =>
      match data with
      | some d => { s with state := state, data := some d }
      | none => { s with state := state }
    { db with states := updateFirst (fun s => s.user_id == user_id) f db.states }

/-- states.clear_user_state: delete the state row if present. -/
def clear_user_state (db : Db) (user_id : Nat) : Db :=
  { db with states := removeFirst (fun s => s.user_id == user_id) db.states }

/-- handlers.get_or_create_user: look up by telegram id, lazily creating
an unregistered user row. -/
def get_or_create_user (db : Db) (telegram_id : Int) (full_name : Option String) :
    Db × UserRec :=
  match db.users.find? (fun u => u.telegram_id == telegram_id) with
  | some u => (db, u)
  | none =>
    let u : UserRec :=
      { id := db.next_user_id, telegram_id := telegram_id, full_name := full_name }
    ({ db with users := db.users ++ [u], next_user_id := db.next_user_id + 1 }, u)

/-- field-by-field mutation of the user row fetched through telegram id,
followed by db.session.commit(). -/
def updateUser (db : Db) (telegram_id : Int) (f : UserRec → UserRec) : Db :=
  { db with users := updateFirst (fun u => u.telegram_id == telegram_id) f db.users }

namespace BROADCAST_STATES

/-- Modelled from the spec: handlers.py imports BROADCAST_STATES from a
revision of the states module absent from the source tree; the spec's
broadcast flow (COMPOSE then CONFIRM) supplies the step names.  Only
their distinctness from the other step names matters to the dispatch. -/
def COMPOSE : String := "broadcast_compose"

/-- Modelled from the spec: the broadcast CONFIRM step name, see COMPOSE. -/
def CONFIRM : String := "broadcast_confirm"

end BROADCAST_STATES

/-- an inbound freeform event: optional message text, optional photo
attachment (the file id of the largest size). -/
structure Msg where
  text : Option String := none
  photo : Option String := none
deriving DecidableEq, Repr

/-- the outbound response descriptors. Each constructor stands for one
reply_text / reply_photo call site of handlers.py; the presentational
message strings and keyboards are not reproduced. -/
inductive Reply
  | askAge
  | invalidAge
  | askTradingYears
  | invalidTradingYears
  | askExperience
  | askAccountType
  | askPhase
  | askProfitTarget
  | invalidProfitTarget
  | askInitialBalance
  | invalidInitialBalance
  | registrationComplete
  | askPair
  | askSL
  | invalidSL
  | askTP
  | invalidTP
  | askResult
  | askBreakevenAmount
  | invalidBreakevenAmount
  | askScreenshotAfterBE (amount : ℚ)
  | askScreenshot
  | askNotesAfterScreenshot
  | askNotesNoScreenshot
  | invalidScreenshot
  | notesRequired
  | tradeLogged (t : Trade) (balance : ℚ)
  | invalidTradeId
  | tradeNotFound (trade_id : Int)
  | tradeDetails (t : Trade)
  | viewFollowupButtons (trade_id : Int)
  | editFieldPicker (trade_id : Int)
  | confirmDeletePrompt (trade_id : Int) (pair : String)
  | deleted (trade_id : Int) (pair : String)
  | deleteCanceled (trade_id : Int)
  | promptTradeId (purpose : String)
  | editMissing
  | invalidDateFormatEdit
  | emptyNotesEdit
  | tradeUpdated (t : Trade)
  | invalidEditValue (fld : String)
  | editFieldPrompt (trade_id : Int) (fld : String)
  | resultButtons (trade_id : Int)
  | askBreakevenEditAmount
  | genericButtonFallback (data : String)
deriving DecidableEq, Repr

/-- Modelled approximation of `datetime.strptime(s, '%Y-%m-%d')`
acceptance: digits-only year, month and day components in range.  No
claim depends on the exact set of accepted date strings. -/
def isYMD (s : String) : Bool :=
  match splitOnCharAux '-' [] s.data with
  | [y, m, d] =>
    (match digitsToNat? y, digitsToNat? m, digitsToNat? d with
     | some _, some mv, some dv => (1 ≤ mv && mv ≤ 12) && (1 ≤ dv && dv ≤ 31)
     | _, _, _ => false)
  | _ => false

/-- the inline P/L derivation of the NOTES commit branch of
handlers.message_handler:
Win gives +take_profit, Loss gives −stop_loss, Breakeven gives the
collected breakeven_amount, each defaulting to 0 when the key is absent;
any other (or missing) result leaves profit_loss as None. -/
def derive_profit_loss (sd : StateData) : Option ℚ :=
  if sd.result = some ("Win") then some (sd.take_profit.getD 0)
  else if sd.result = some ("Loss") then some (-(sd.stop_loss.getD 0))
  else if sd.result = some ("Breakeven") then some (sd.breakeven_amount.getD 0)
  else none

/-- the balance block of the NOTES commit branch: initialize
current_balance from initial_balance (default 10000.0 when both are
absent), then apply the P/L delta when it is non-null. -/
def apply_balance (profit_loss : Option ℚ) (u : UserRec) : UserRec :=
  let u1 :=
    if u.current_balance = none ∧ u.initial_balance.isSome then
      { u with current_balance := u.initial_balance }
    else if u.current_balance = none ∧ u.initial_balance = none then
      { u with initial_balance := some 10000, current_balance := some 10000 }
    else u
  match profit_loss with
  | some p => { u1 with current_balance := some (u1.current_balance.getD 0 + p) }
  | none => u1

/-- the Trade(...) construction of the NOTES commit branch: the collected
payload fields with their source defaults, the date falling back to today
when the stored string is absent or fails to re-parse. -/
def build_trade (today : String) (next_id : Nat) (uid : Nat) (sd2 : StateData)
    (pl : Option ℚ) : Trade :=
  { id := next_id
    user_id := uid
    date :=
      match sd2.date with
      | some s => if s ≠ "" ∧ isYMD s then s else today
      | none => today
    pair_traded := sd2.pair.getD ("UNKNOWN")
    stop_loss := sd2.stop_loss.getD 0
    take_profit := sd2.take_profit.getD 0
    result := sd2.result.getD ("Breakeven")
    screenshot_id := sd2.screenshot_id
    notes := sd2.notes.getD ("")
    profit_loss := pl }

/-- the trade lookup used by every per-id branch:
`Trade.query.filter_by(id=trade_id, user_id=user.id).first()`. -/
def find_owned_trade (db : Db) (trade_id : Int) (user_id : Nat) : Option Trade :=
  db.trades.find? (fun t => (t.id : Int) == trade_id && t.user_id == user_id)

/-- handlers.message_handler, covering the dispatch and every branch a
claim touches; `today` stands for `datetime.utcnow().date()` in ISO form.
The DATE, BROADCAST COMPOSE and THERAPY ACTIVE branches are outside the
modelled scope and fall through with no effect, as do the inputs on which
the source would raise an uncaught non-ValueError exception before any
database write (e.g. a photo-only update at a text step). -/
def message_handler (today : String) (db : Db) (telegram_id : Int) (msg : Msg) :
    Db × List Reply :=
  if msg.text = none ∧ msg.photo = none then (db, [])
  else
    let p := get_or_create_user db telegram_id none
    let db0 := p.1
    let user := p.2
    match get_user_state db0 user.id with
    | none => (db0, [])
    | some cs =>
      let sd := cs.get_data
      if cs.state = REGISTRATION_STATES.FULL_NAME then
        let db1 := updateUser db0 telegram_id (fun u => { u with full_name := msg.text })
        (set_user_state db1 user.id REGISTRATION_STATES.AGE none, [Reply.askAge])
      else if cs.state = REGISTRATION_STATES.AGE then
        match msg.text with
        | none => (db0, [])
        | some txt =>
          match pyParseInt txt with
          | some n =>
            let db1 := updateUser db0 telegram_id (fun u => { u with age := some n })
            (set_user_state db1 user.id REGISTRATION_STATES.TRADING_YEARS none,
             [Reply.askTradingYears])
          | none => (db0, [Reply.invalidAge])
      else if cs.state = REGISTRATION_STATES.TRADING_YEARS then
        match msg.text with
        | none => (db0, [])
        | some txt =>
          match pyParseFloat txt with
          | some q =>
            let db1 := updateUser db0 telegram_id (fun u => { u with trading_years := some q })
            (set_user_state db1 user.id REGISTRATION_STATES.EXPERIENCE none,
             [Reply.askExperience])
          | none => (db0, [Reply.invalidTradingYears])
      else if cs.state = REGISTRATION_STATES.PROFIT_TARGET then
        match msg.text with
        | none => (db0, [])
        | some txt =>
          match pyParseFloat txt with
          | some q =>
            let db1 := updateUser db0 telegram_id (fun u => { u with profit_target := some q })
            (set_user_state db1 user.id REGISTRATION_STATES.INITIAL_BALANCE none,
             [Reply.askInitialBalance])
          | none => (db0, [Reply.invalidProfitTarget])
      else if cs.state = REGISTRATION_STATES.INITIAL_BALANCE then
        match msg.text with
        | none => (db0, [])
        | some txt =>
          match pyParseFloat txt with
          | some q =>
            let db1 := updateUser db0 telegram_id (fun u =>
              { u with initial_balance := some q, current_balance := some q,
                       registration_complete := true })
            (clear_user_state db1 user.id, [Reply.registrationComplete])
          | none => (db0, [Reply.invalidInitialBalance])
      else if cs.state = "view_trade_id" then
        match msg.text with
        | none => (db0, [])
        | some txt =>
          match pyParseInt txt with
          | none => (db0, [Reply.invalidTradeId])
          | some tid =>
            match find_owned_trade db0 tid user.id with
            | none => (clear_user_state db0 user.id, [Reply.tradeNotFound tid])
            | some trade =>
              (clear_user_state db0 user.id,
               [Reply.tradeDetails trade, Reply.viewFollowupButtons tid])
      else if cs.state = "edit_trade_id" then
        match msg.text with
        | none => (db0, [])
        | some txt =>
          match pyParseInt txt with
          | none => (db0, [Reply.invalidTradeId])
          | some tid =>
            match find_owned_trade db0 tid user.id with
            | none => (clear_user_state db0 user.id, [Reply.tradeNotFound tid])
            | some _ => (clear_user_state db0 user.id, [Reply.editFieldPicker tid])
      else if cs.state = "delete_trade_id" then
        match msg.text with
        | none => (db0, [])
        | some txt =>
          match pyParseInt txt with
          | none => (db0, [Reply.invalidTradeId])
          | some tid =>
            match find_owned_trade db0 tid user.id with
            | none => (clear_user_state db0 user.id, [Reply.tradeNotFound tid])
            | some trade =>
              (clear_user_state db0 user.id,
               [Reply.confirmDeletePrompt tid trade.pair_traded])
      else if cs.state = "edit_trade_value" then
        -- `if not trade_id or not field`: Python falsiness of None, 0 and ''
        match sd.trade_id, sd.field with
        | some tid, some fld =>
          if tid == 0 || fld == ("") then
            (clear_user_state db0 user.id, [Reply.editMissing])
          else
            match find_owned_trade db0 tid user.id with
            | none => (clear_user_state db0 user.id, [Reply.tradeNotFound tid])
            | some trade =>
              let commitEdit : Trade → Db × List Reply := fun t2 =>
                let tr2 := updateFirst (fun t => (t.id : Int) == tid && t.user_id == user.id) (fun _ => t2) db0.trades
                let db1 := { db0 with trades := tr2 }
                (clear_user_state db1 user.id, [Reply.tradeUpdated t2])
              if fld = ("date") then
                match msg.text with
                | none => (db0, [])
                | some txt =>
                  if isYMD txt then commitEdit { trade with date := txt }
                  else (db0, [Reply.invalidDateFormatEdit])
              else if fld = ("pair") then
                match msg.text with
                | none => (db0, [])
                | some txt => commitEdit { trade with pair_traded := txt }
              else if fld = ("sl") then
                match msg.text with
                | none => (db0, [])
                | some txt =>
                  match pyParseFloat txt with
                  | some v => commitEdit { trade with stop_loss := v }
                  | none => (db0, [Reply.invalidEditValue fld])
              else if fld = ("tp") then
                match msg.text with
                | none => (db0, [])
                | some txt =>
                  match pyParseFloat txt with
                  | some v => commitEdit { trade with take_profit := v }
                  | none => (db0, [Reply.invalidEditValue fld])
              else if fld = ("pl") then
                match msg.text with
                | none => (db0, [])
                | some txt =>
                  match pyParseFloat txt with
                  | some v => commitEdit { trade with profit_loss := some v }
                  | none => (db0, [Reply.invalidEditValue fld])
              else if fld = ("notes") then
                match msg.text with
                | none => (db0, [Reply.emptyNotesEdit])
                | some txt =>
                  if pyStrip txt = [] then (db0, [Reply.emptyNotesEdit])
                  else commitEdit { trade with notes := txt }
              else
                -- unknown field name: the source falls through the chain
                -- and commits with no field assigned
                commitEdit trade
        | _, _ => (clear_user_state db0 user.id, [Reply.editMissing])
      else if cs.state = JOURNAL_STATES.PAIR then
        match msg.text with
        | none => (db0, [])
        | some txt =>
          (set_user_state db0 user.id JOURNAL_STATES.SL
            (some { sd with pair := some (pyUpper txt) }), [Reply.askSL])
      else if cs.state = JOURNAL_STATES.SL then
        match msg.text with
        | none => (db0, [])
        | some txt =>
          match pyParseFloat txt with
          | some v =>
            (set_user_state db0 user.id JOURNAL_STATES.TP
              (some { sd with stop_loss := some v }), [Reply.askTP])
          | none => (db0, [Reply.invalidSL])
      else if cs.state = JOURNAL_STATES.BREAKEVEN_AMOUNT then
        match msg.text with
        | none => (db0, [])
        | some txt =>
          match pyParseFloat txt with
          | some v =>
            (set_user_state db0 user.id JOURNAL_STATES.SCREENSHOT
              (some { sd with breakeven_amount := some v }),
             [Reply.askScreenshotAfterBE v])
          | none => (db0, [Reply.invalidBreakevenAmount])
      else if cs.state = JOURNAL_STATES.TP then
        match msg.text with
        | none => (db0, [])
        | some txt =>
          match pyParseFloat txt with
          | some v =>
            (set_user_state db0 user.id JOURNAL_STATES.RESULT
              (some { sd with take_profit := some v }), [Reply.askResult])
          | none => (db0, [Reply.invalidTP])
      else if cs.state = JOURNAL_STATES.SCREENSHOT then
        match msg.photo with
        | some fid =>
          (set_user_state db0 user.id JOURNAL_STATES.NOTES
            (some { sd with screenshot_id := some fid }),
           [Reply.askNotesAfterScreenshot])
        | none =>
          match msg.text with
          | none => (db0, [])
          | some txt =>
            if pyLower txt = ("skip") then
              (set_user_state db0 user.id JOURNAL_STATES.NOTES (some sd),
               [Reply.askNotesNoScreenshot])
            else (db0, [Reply.invalidScreenshot])
      else if cs.state = JOURNAL_STATES.NOTES then
        match msg.text with
        | none => (db0, [Reply.notesRequired])
        | some txt =>
          if pyStrip txt = [] then (db0, [Reply.notesRequired])
          else
            let sd2 := { sd with notes := some txt }
            let profit_loss := derive_profit_loss sd2
            let trade : Trade := build_trade today db0.next_trade_id user.id sd2 profit_loss
            let db1 := { db0 with trades := db0.trades ++ [trade], next_trade_id := db0.next_trade_id + 1 }
            let db2 := updateUser db1 telegram_id (apply_balance profit_loss)
            let balance :=
              match (db2.users.find? (fun u => u.telegram_id == telegram_id)) with
              | some u => u.current_balance.getD 0
              | none => 0
            (clear_user_state db2 user.id, [Reply.tradeLogged trade balance])
      else
        (db0, [])

/-- the data-driven tail of the elif chain of handlers.button_callback,
reached when no state-dispatched branch fires. -/
def button_data_dispatch (db0 : Db) (user : UserRec) (data : String) :
    Db × List Reply :=
  if data = "trades_prev_page" ∨ data = "trades_next_page" then
    -- re-renders the listing from context.user_data; read-only on the DB
    (db0, [])
  else if data = "view_trade" then
    (set_user_state db0 user.id "view_trade_id" none, [Reply.promptTradeId ("view")])
  else if data = "edit_trade" then
    (set_user_state db0 user.id "edit_trade_id" none, [Reply.promptTradeId ("edit")])
  else if data = "delete_trade" then
    (set_user_state db0 user.id "delete_trade_id" none, [Reply.promptTradeId ("delete")])
  else if pyStartsWith data ("confirm_delete_") then
    match pyParseInt (pyReplace data ("confirm_delete_") ("")) with
    | none => (db0, [])
    | some tid =>
      match find_owned_trade db0 tid user.id with
      | none => (db0, [Reply.tradeNotFound tid])
      | some trade =>
        let tr2 := removeFirst (fun t => (t.id : Int) == tid && t.user_id == user.id) db0.trades
        ({ db0 with trades := tr2 }, [Reply.deleted tid trade.pair_traded])
  else if pyStartsWith data ("cancel_delete_") then
    match pyParseInt (pyReplace data ("cancel_delete_") ("")) with
    | none => (db0, [])
    | some tid => (db0, [Reply.deleteCanceled tid])
  else if pyStartsWith data ("edit_field_") then
    match splitString '_' data with
    | ["edit", "field", ts, fld] =>
      match pyParseInt ts with
      | none => (db0, [])
      | some tid =>
        match find_owned_trade db0 tid user.id with
        | none => (db0, [Reply.tradeNotFound tid])
        | some _ =>
          if fld = ("result") then (db0, [Reply.resultButtons tid])
          else
            (set_user_state db0 user.id "edit_trade_value"
              (some { trade_id := some tid, field := some fld }),
             [Reply.editFieldPrompt tid fld])
    | _ => (db0, [])
  else if pyStartsWith data ("edit_this_trade_") then
    match pyParseInt (pyReplace data ("edit_this_trade_") ("")) with
    | none => (db0, [])
    | some tid =>
      match find_owned_trade db0 tid user.id with
      | none => (db0, [Reply.tradeNotFound tid])
      | some _ => (db0, [Reply.editFieldPicker tid])
  else if pyStartsWith data ("delete_this_trade_") then
    match pyParseInt (pyReplace data ("delete_this_trade_") ("")) with
    | none => (db0, [])
    | some tid =>
      match find_owned_trade db0 tid user.id with
      | none => (db0, [Reply.tradeNotFound tid])
      | some trade => (db0, [Reply.confirmDeletePrompt tid trade.pair_traded])
  else if pyStartsWith data ("set_result_") then
    match splitString '_' data with
    | ["set", "result", ts, res] =>
      match pyParseInt ts with
      | none => (db0, [])
      | some tid =>
        match find_owned_trade db0 tid user.id with
        | none => (db0, [Reply.tradeNotFound tid])
        | some trade =>
          let t2 := { trade with result := res }
          let tr2 := updateFirst (fun t => (t.id : Int) == tid && t.user_id == user.id) (fun _ => t2) db0.trades
          let db1 := { db0 with trades := tr2 }
          if res = ("Breakeven") then
            (set_user_state db1 user.id "edit_trade_value"
              (some { trade_id := some tid, field := some ("pl") }),
             [Reply.askBreakevenEditAmount])
          else (db1, [Reply.tradeUpdated t2])
    | _ => (db0, [])
  else (db0, [Reply.genericButtonFallback data])

/-- handlers.button_callback: the state-dispatched branches first
(registration choices, journal result choice, broadcast confirm), then the
data-driven chain.  The BROADCAST CONFIRM branch (delivery loop) is
outside the modelled scope and falls through with no effect. -/
def button_callback (db : Db) (telegram_id : Int) (data : String) :
    Db × List Reply :=
  let p := get_or_create_user db telegram_id none
  let db0 := p.1
  let user := p.2
  match get_user_state db0 user.id with
  | some cs =>
    if cs.state = REGISTRATION_STATES.EXPERIENCE then
      let db1 := updateUser db0 telegram_id (fun u => { u with experience_level := some data })
      (set_user_state db1 user.id REGISTRATION_STATES.ACCOUNT_TYPE none,
       [Reply.askAccountType])
    else if cs.state = REGISTRATION_STATES.ACCOUNT_TYPE then
      let db1 := updateUser db0 telegram_id (fun u => { u with account_type := some data })
      if data = ("Funded") then
        (set_user_state db1 user.id REGISTRATION_STATES.PHASE none, [Reply.askPhase])
      else
        (set_user_state db1 user.id REGISTRATION_STATES.PROFIT_TARGET none,
         [Reply.askProfitTarget])
    else if cs.state = REGISTRATION_STATES.PHASE then
      let db1 := updateUser db0 telegram_id (fun u => { u with phase := some data })
      (set_user_state db1 user.id REGISTRATION_STATES.PROFIT_TARGET none,
       [Reply.askProfitTarget])
    else if cs.state = JOURNAL_STATES.RESULT then
      let sd2 := { cs.get_data with result := some data }
      if data = ("Breakeven") then
        (set_user_state db0 user.id JOURNAL_STATES.BREAKEVEN_AMOUNT (some sd2),
         [Reply.askBreakevenAmount])
      else
        (set_user_state db0 user.id JOURNAL_STATES.SCREENSHOT (some sd2),
         [Reply.askScreenshot])
    else if cs.state = BROADCAST_STATES.CONFIRM then
      (db0, [])
    else button_data_dispatch db0 user data
  | none => button_data_dispatch db0 user data

/-! Spec-side definitions, written from the spec's words (§4.1 step 6)
for the refinement comparison of claim C4; everything above is from the
source. -/

/-- the spec's set {nominal wins ∪ profitable breakevens}. -/
def spec_win_set (trades : List Trade) : List Trade :=
  trades.filter (fun t => t.result == ("Win") || profitableBE t)

/-- the spec's set {nominal losses ∪ unprofitable breakevens}. -/
def spec_loss_set (trades : List Trade) : List Trade :=
  trades.filter (fun t => t.result == ("Loss") || unprofitableBE t)

/-- the spec's average win: mean P/L over spec_win_set, 0 if empty. -/
def spec_avg_win (trades : List Trade) : ℚ :=
  if spec_win_set trades ≠ [] then
    plSum (spec_win_set trades) / ((spec_win_set trades).length : ℚ)
  else 0

/-- the spec's average loss: mean absolute P/L over spec_loss_set, 0 if
empty. -/
def spec_avg_loss (trades : List Trade) : ℚ :=
  if spec_loss_set trades ≠ [] then
    ((spec_loss_set trades).map (fun t => |t.profit_loss.getD 0|)).sum /
      ((spec_loss_set trades).length : ℚ)
  else 0

/-! Concrete fixtures used by witnesses and counterexamples. -/

/-- a registered user fixture. -/
def wUser1 : UserRec := { id := 1, telegram_id := 7, current_balance := some 1000, initial_balance := some 1000, registration_complete := true }

/-- a second, distinct user fixture. -/
def wUser2 : UserRec := { id := 2, telegram_id := 8, current_balance := some 500, initial_balance := some 500, registration_complete := true }

/-- journaling payload collected through the DATE and PAIR steps. -/
def wPairData : StateData := { date := some ("2025-04-29"), pair := some ("EURUSD") }

/-- store with user 1 at the registration AGE step. -/
def wDbAge : Db := { users := [wUser1], states := [{ user_id := 1, state := ("registration_age") }] }

/-- store with user 1 at the journaling SL step. -/
def wDbSL : Db := { users := [wUser1], states := [{ user_id := 1, state := ("journal_sl"), data := some wPairData }] }

/-- journaling payload as collected at the NOTES step of a Win flow with
SL = 10 and TP = 20. -/
def wWinData : StateData := { date := some ("2025-04-29"), pair := some ("EURUSD"), stop_loss := some 10, take_profit := some 20, result := some ("Win") }

/-- journaling payload at the NOTES step of a Breakeven flow whose
breakeven-amount step was bypassed. -/
def wBEData : StateData := { date := some ("2025-04-29"), pair := some ("EURUSD"), stop_loss := some 10, take_profit := some 20, result := some ("Breakeven") }

/-- result of feeding "10" (SL), "20" (TP), the Win button and "skip"
(screenshot) from the SL-step store: user 1 sits at the NOTES step. -/
def wDbNotes : Db :=
  (message_handler ("2025-05-01")
    (button_callback
      (message_handler ("2025-05-01")
        (message_handler ("2025-05-01") wDbSL 7 { text := some ("10") }).1
        7 { text := some ("20") }).1
      7 ("Win")).1
    7 { text := some ("skip") }).1

/-- store with user 1 at the NOTES step of the bypassed-breakeven flow. -/
def wDbNotesBE : Db := { users := [wUser1], states := [{ user_id := 1, state := ("journal_notes"), data := some wBEData }] }

/-- a logged trade owned by user 1. -/
def wTrade3 : Trade := { id := 3, user_id := 1, date := ("2025-04-29"), pair_traded := ("EURUSD"), stop_loss := 10, take_profit := 20, result := ("Win"), screenshot_id := none, notes := ("n"), profit_loss := some 20 }

/-- store with user 1 at the delete-id step and owning trade 3. -/
def wDbDel : Db := { users := [wUser1], trades := [wTrade3], states := [{ user_id := 1, state := ("delete_trade_id") }] }

/-- a trade owned by user 2. -/
def wTradeB : Trade := { id := 9, user_id := 2, date := ("2025-04-29"), pair_traded := ("GBPUSD"), stop_loss := 5, take_profit := 8, result := ("Loss"), screenshot_id := none, notes := ("n"), profit_loss := some (-5) }

/-- store with users 1 and 2, user 2's trade, and user 1 at the view-id
step. -/
def wDbCross : Db := { users := [wUser1, wUser2], trades := [wTradeB], states := [{ user_id := 1, state := ("view_trade_id") }] }

/-- statement abbreviation for claims C2 and C10: handling text txt at
the NOTES step appends exactly the built trade carrying P/L plv for this
user, moves the user's balance by exactly plv from its initialized
pre-trade value, and clears the conversation state. -/
def commitOutcome (today : String) (db : Db) (tid : Int) (u : UserRec)
    (cs : UserStateRec) (txt : String) (plv : ℚ) : Prop :=
  ((message_handler today db tid { text := some txt }).1.trades
     = db.trades ++ [build_trade today db.next_trade_id u.id { cs.get_data with notes := some txt } (some plv)]) ∧
  ((build_trade today db.next_trade_id u.id { cs.get_data with notes := some txt } (some plv)).profit_loss = some plv) ∧
  ((build_trade today db.next_trade_id u.id { cs.get_data with notes := some txt } (some plv)).user_id = u.id) ∧
  ((message_handler today db tid { text := some txt }).1.users.find?
      (fun x => x.telegram_id == tid) = some (apply_balance (some plv) u)) ∧
  ((apply_balance (some plv) u).current_balance
     = some (u.current_balance.getD (u.initial_balance.getD 10000) + plv)) ∧
  get_user_state (message_handler today db tid { text := some txt }).1 u.id = none

/-! Infrastructure lemmas about the list-backed store operations. -/

/-- the well-formedness invariant of the user_states table: at most one
conversation-state row per user (the spec's "one per User"). -/
def statesUnique (db : Db) : Prop :=
  db.states.Pairwise (fun a b => a.user_id ≠ b.user_id)

instance (db : Db) : Decidable (statesUnique db) :=
  inferInstanceAs
    (Decidable (db.states.Pairwise (fun a b : UserStateRec => a.user_id ≠ b.user_id)))

lemma find?_updateFirst {α : Type} (p : α → Bool) (f : α → α) :
    ∀ {l : List α} {r : α}, l.find? p = some r → p (f r) = true →
      (updateFirst p f l).find? p = some (f r) := by
  intro l
  induction l with
  | nil => intro r h _; simp at h
  | cons x xs ih =>
    intro r h hf
    by_cases hx : p x = true
    · rw [List.find?_cons_of_pos _ hx] at h
      cases h
      simp [updateFirst, hx, List.find?_cons_of_pos _ hf]
    · rw [List.find?_cons_of_neg _ hx] at h
      simp only [updateFirst, if_neg hx]
      rw [List.find?_cons_of_neg _ hx]
      exact ih h hf

lemma find?_removeFirst_of_pairwise {α : Type} (p : α → Bool) :
    ∀ {l : List α}, l.Pairwise (fun a b => ¬(p a = true ∧ p b = true)) →
      (removeFirst p l).find? p = none := by
  intro l
  induction l with
  | nil => intro _; simp [removeFirst]
  | cons x xs ih =>
    intro hp
    rcases List.pairwise_cons.mp hp with ⟨hx, hxs⟩
    by_cases hpx : p x = true
    · simp only [removeFirst, if_pos hpx]
      exact List.find?_eq_none.mpr (fun b hb hpb => hx b hb ⟨hpx, hpb⟩)
    · simp only [removeFirst, if_neg hpx]
      rw [List.find?_cons_of_neg _ (by simpa using hpx)]
      exact ih hxs

lemma find?_append_of_none {α : Type} (p : α → Bool) :
    ∀ {l₁ : List α}, l₁.find? p = none → ∀ l₂, (l₁ ++ l₂).find? p = l₂.find? p := by
  intro l₁
  induction l₁ with
  | nil => intro _ l₂; simp
  | cons x xs ih =>
    intro h l₂
    have hx : ¬p x = true := by
      intro hx
      rw [List.find?_cons_of_pos _ hx] at h
      exact Option.noConfusion h
    rw [List.find?_cons_of_neg _ hx] at h
    rw [List.cons_append, List.find?_cons_of_neg _ hx]
    exact ih h l₂

lemma get_user_state_clear_of_unique {db : Db} {uid : Nat}
    (h : statesUnique db) : get_user_state (clear_user_state db uid) uid = none := by
  have h2 : db.states.Pairwise
      (fun a b => ¬((a.user_id == uid) = true ∧ (b.user_id == uid) = true)) := by
    refine h.imp ?_
    intro a b hne hc
    exact hne (by
      have h1 := of_decide_eq_true hc.1
      have h2 := of_decide_eq_true hc.2
      omega)
  exact find?_removeFirst_of_pairwise _ h2

/-! The claims. -/

/-- C6: set_user_state upserts (creates a state record if none exists,
otherwise overwrites the step), and the stored payload is replaced
wholesale exactly when a payload argument is passed: a set call with the
payload omitted preserves any previously stored payload unchanged. -/
theorem c6_set_user_state_upsert (db : Db) (uid : Nat) (st : String) :
    (∀ r, get_user_state db uid = some r →
       get_user_state (set_user_state db uid st none) uid = some { r with state := st } ∧
       ∀ d, get_user_state (set_user_state db uid st (some d)) uid
          = some { r with state := st, data := some d }) ∧
    (get_user_state db uid = none →
       ∀ d, get_user_state (set_user_state db uid st d) uid
          = some { user_id := uid, state := st, data := d }) := by
  constructor
  · intro r hr
    have hr' : db.states.find? (fun s => s.user_id == uid) = some r := hr
    have hp : (r.user_id == uid) = true := by
      have h2 := List.find?_some hr'
      simpa using h2
    constructor
    · show (set_user_state db uid st none).states.find? (fun s => s.user_id == uid) = _
      simp only [set_user_state, hr']
      exact find?_updateFirst _ _ hr' hp
    · intro d
      show (set_user_state db uid st (some d)).states.find? (fun s => s.user_id == uid) = _
      simp only [set_user_state, hr']
      exact find?_updateFirst _ _ hr' hp
  · intro hn d
    have hn' : db.states.find? (fun s => s.user_id == uid) = none := hn
    show (set_user_state db uid st d).states.find? (fun s => s.user_id == uid) = _
    simp only [set_user_state, hn']
    rw [find?_append_of_none _ hn']
    simp [List.find?]

/-- C6 witness: a pure step transition on an existing record preserves
the stored payload, at a concrete store. -/
theorem c6_witness :
    get_user_state
      (set_user_state
        { states := [{ user_id := 1, state := ("a"), data := some { pair := some ("EURUSD") } }] }
        1 ("b") none) 1
      = some { user_id := 1, state := ("b"), data := some { pair := some ("EURUSD") } } := by
  have h := (c6_set_user_state_upsert
    { states := [{ user_id := 1, state := ("a"), data := some { pair := some ("EURUSD") } }] }
    1 ("b")).1
    { user_id := 1, state := ("a"), data := some { pair := some ("EURUSD") } } (by decide)
  exact h.1

/-- C1: for every non-empty trade set the computed win and loss rates are
effective_wins (resp. effective_losses) over counted_trades times 100,
both 0 when counted_trades is 0 (the returned record carries the rate
rounded to two decimals); in particular a trade set consisting only of
Breakeven trades with P/L 0 or null reports win_rate = loss_rate = 0. -/
theorem c1_win_loss_rates (trades : List Trade) (hne : trades ≠ []) :
    (0 < counted_trades trades →
       win_rate trades = ((effective_wins trades : ℚ) / (counted_trades trades : ℚ)) * 100 ∧
       loss_rate trades = ((effective_losses trades : ℚ) / (counted_trades trades : ℚ)) * 100) ∧
    (counted_trades trades = 0 → win_rate trades = 0 ∧ loss_rate trades = 0) ∧
    ((calculate_stats trades).win_rate = round2 (win_rate trades) ∧
     (calculate_stats trades).loss_rate = round2 (loss_rate trades)) ∧
    ((∀ t ∈ trades, t.result = ("Breakeven") ∧ (t.profit_loss = some 0 ∨ t.profit_loss = none)) →
       (calculate_stats trades).win_rate = 0 ∧ (calculate_stats trades).loss_rate = 0) := by
  have hni : trades.isEmpty = false := by
    cases trades with
    | nil => exact absurd rfl hne
    | cons a l => rfl
  refine ⟨?_, ?_, ?_, ?_⟩
  · intro h
    constructor <;> simp [win_rate, loss_rate, h]
  · intro h
    constructor <;> simp [win_rate, loss_rate, h]
  · constructor <;> simp [calculate_stats, hni]
  · intro hall
    have hw : wins trades = 0 := by
      refine List.countP_eq_zero.mpr (fun t ht => ?_)
      have h1 := (hall t ht).1
      simp [h1]
    have hl : losses trades = 0 := by
      refine List.countP_eq_zero.mpr (fun t ht => ?_)
      have h1 := (hall t ht).1
      simp [h1]
    have hpb : profitable_be trades = 0 := by
      refine List.countP_eq_zero.mpr (fun t ht => ?_)
      rcases (hall t ht).2 with h2 | h2 <;> simp [profitableBE, h2]
    have hub : unprofitable_be trades = 0 := by
      refine List.countP_eq_zero.mpr (fun t ht => ?_)
      rcases (hall t ht).2 with h2 | h2 <;> simp [unprofitableBE, h2]
    have hc : counted_trades trades = 0 := by
      simp [counted_trades, hw, hl, hpb, hub]
    have hwr : win_rate trades = 0 := by simp [win_rate, hc]
    have hlr : loss_rate trades = 0 := by simp [loss_rate, hc]
    have hr0 : round2 0 = 0 := by
      simp [round2, roundHalfEven]
    constructor <;> simp [calculate_stats, hni, hwr, hlr, hr0]

/-- C1 witness: two zero-or-null breakeven trades give 0% win and loss
rates. -/
theorem c1_witness :
    (calculate_stats
      [{ id := 1, user_id := 1, date := ("d"), pair_traded := ("EURUSD"), stop_loss := 1,
         take_profit := 1, result := ("Breakeven"), screenshot_id := none, notes := ("n"),
         profit_loss := some 0 },
       { id := 2, user_id := 1, date := ("d"), pair_traded := ("EURUSD"), stop_loss := 1,
         take_profit := 1, result := ("Breakeven"), screenshot_id := none, notes := ("n"),
         profit_loss := none }]).win_rate = 0 := by
  have h := (c1_win_loss_rates
    [{ id := 1, user_id := 1, date := ("d"), pair_traded := ("EURUSD"), stop_loss := 1,
       take_profit := 1, result := ("Breakeven"), screenshot_id := none, notes := ("n"),
       profit_loss := some 0 },
     { id := 2, user_id := 1, date := ("d"), pair_traded := ("EURUSD"), stop_loss := 1,
       take_profit := 1, result := ("Breakeven"), screenshot_id := none, notes := ("n"),
       profit_loss := none }] (by decide)).2.2.2 (by decide)
  exact h.1

/-- C3: calculate_stats is total, never divides by zero (each guarded
rate short-circuits to 0 when its denominator is 0, and the
risk/reward ratio is the quotient only when avg_loss is positive), and
the empty trade set yields the documented zero-valued record. -/
theorem c3_total_no_div_by_zero :
    (calculate_stats [] =
      { total_trades := 0
        wins := 0
        losses := 0
        breakevens := 0
        effective_wins := 0
        effective_losses := 0
        win_rate := 0
        loss_rate := 0
        net_profit_loss := 0
        avg_win := 0
        avg_loss := 0
        risk_reward_ratio := 0
        most_traded_pair := "None"
        best_pair := "None"
        worst_pair := "None" }) ∧
    ∀ trades : List Trade,
      (counted_trades trades = 0 → win_rate trades = 0 ∧ loss_rate trades = 0) ∧
      (avg_loss trades = 0 → risk_reward_ratio trades = 0) ∧
      (0 < avg_loss trades → risk_reward_ratio trades = avg_win trades / avg_loss trades) ∧
      (win_trades trades = [] → avg_win trades = 0) ∧
      (loss_trades trades = [] → avg_loss trades = 0) := by
  refine ⟨rfl, fun trades => ⟨?_, ?_, ?_, ?_, ?_⟩⟩
  · intro h
    constructor <;> simp [win_rate, loss_rate, h]
  · intro h
    simp [risk_reward_ratio, h]
  · intro h
    simp [risk_reward_ratio, h]
  · intro h
    simp [avg_win, h]
  · intro h
    simp [avg_loss, h]

lemma sum_nonpos_abs (l : List ℚ) (h : ∀ x ∈ l, x ≤ 0) :
    l.sum ≤ 0 ∧ |l.sum| = (l.map (fun x => |x|)).sum := by
  induction l with
  | nil => simp
  | cons x xs ih =>
    have hx : x ≤ 0 := h x (List.mem_cons_self _ _)
    have hxs := ih (fun y hy => h y (List.mem_cons_of_mem _ hy))
    constructor
    · simp only [List.sum_cons]
      linarith [hxs.1]
    · simp only [List.sum_cons, List.map_cons]
      rw [abs_of_nonpos (by linarith [hxs.1]), abs_of_nonpos hx, ← hxs.2,
        abs_of_nonpos hxs.1]
      ring

/-- C4: on trade sets whose nominal Win and Loss trades carry a non-null
P/L of the documented sign, the reported avg_win is the mean P/L over
{nominal wins ∪ profitable breakevens} and avg_loss is the mean absolute
P/L over {nominal losses ∪ unprofitable breakevens}, each 0 on an empty
set; a Breakeven trade with P/L +5 belongs to the avg_win numerator set
and one with P/L −5 to the avg_loss set. -/
theorem c4_avg_win_loss (trades : List Trade)
    (hW : ∀ t ∈ trades, t.result = ("Win") → t.profit_loss ≠ none)
    (hL : ∀ t ∈ trades, t.result = ("Loss") → t.profit_loss ≠ none)
    (hLsign : ∀ t ∈ trades, t.result = ("Loss") → ∀ p, t.profit_loss = some p → p ≤ 0) :
    (calculate_stats trades).avg_win = spec_avg_win trades ∧
    (calculate_stats trades).avg_loss = spec_avg_loss trades ∧
    (∀ t ∈ trades, t.result = ("Breakeven") → t.profit_loss = some 5 →
       t ∈ win_trades trades) ∧
    (∀ t ∈ trades, t.result = ("Breakeven") → t.profit_loss = some (-5) →
       t ∈ loss_trades trades) := by
  have hWT : win_trades trades = spec_win_set trades := by
    refine List.filter_congr (fun t ht => ?_)
    by_cases hw : t.result = ("Win")
    · have hsome : t.profit_loss.isSome = true := by
        cases hpl : t.profit_loss with
        | none => exact absurd hpl (hW t ht hw)
        | some v => rfl
      simp [hw, hsome]
    · have : (t.result == ("Win")) = false := by
        simpa using hw
      simp [this]
  have hLT : loss_trades trades = spec_loss_set trades := by
    refine List.filter_congr (fun t ht => ?_)
    by_cases hw : t.result = ("Loss")
    · have hsome : t.profit_loss.isSome = true := by
        cases hpl : t.profit_loss with
        | none => exact absurd hpl (hL t ht hw)
        | some v => rfl
      simp [hw, hsome]
    · have : (t.result == ("Loss")) = false := by
        simpa using hw
      simp [this]
  have hnp : ∀ t ∈ loss_trades trades, t.profit_loss.getD 0 ≤ 0 := by
    intro t ht
    rcases List.mem_filter.mp ht with ⟨htr, hpred⟩
    rcases Bool.or_eq_true_iff.mp hpred with h1 | h1
    · rcases Bool.and_eq_true_iff.mp h1 with ⟨hres, hsome⟩
      rcases Option.isSome_iff_exists.mp hsome with ⟨v, hv⟩
      have := hLsign t htr (by simpa using hres) v hv
      simp [hv, this]
    · rcases Bool.and_eq_true_iff.mp h1 with ⟨hres, hneg⟩
      cases hpl : t.profit_loss with
      | none => simp [unprofitableBE, hpl] at h1
      | some v =>
        have : v < 0 := by
          simp [unprofitableBE, hpl] at h1
          exact h1.2
        simp [hpl]
        linarith
  have havg : avg_win trades = spec_avg_win trades := by
    simp only [avg_win, spec_avg_win, hWT]
  have habs := sum_nonpos_abs ((loss_trades trades).map (fun t => t.profit_loss.getD 0))
    (by
      intro x hx
      rcases List.mem_map.mp hx with ⟨t, ht, rfl⟩
      exact hnp t ht)
  have havgl : avg_loss trades = spec_avg_loss trades := by
    simp only [avg_loss, spec_avg_loss, hLT.symm]
    by_cases hl0 : loss_trades trades = []
    · simp [hl0]
    · rw [if_pos hl0, if_pos hl0]
      rw [abs_div, abs_of_nonneg (by positivity : (0:ℚ) ≤ ((loss_trades trades).length : ℚ))]
      rw [show plSum (loss_trades trades) =
        ((loss_trades trades).map (fun t => t.profit_loss.getD 0)).sum from rfl]
      rw [habs.2, List.map_map]
      rfl
  have hcw : (calculate_stats trades).avg_win = avg_win trades ∧
      (calculate_stats trades).avg_loss = avg_loss trades := by
    by_cases hni : trades.isEmpty
    · have he : trades = [] := by
        cases trades with
        | nil => rfl
        | cons a l => simp at hni
      subst he
      constructor <;> simp [calculate_stats, avg_win, avg_loss, win_trades, loss_trades]
    · have hni' : trades.isEmpty = false := by
        simpa using hni
      constructor <;> simp [calculate_stats, hni']
  refine ⟨hcw.1.trans havg, hcw.2.trans havgl, ?_, ?_⟩
  · intro t ht hres hpl
    refine List.mem_filter.mpr ⟨ht, ?_⟩
    simp [profitableBE, hres, hpl]
  · intro t ht hres hpl
    refine List.mem_filter.mpr ⟨ht, ?_⟩
    simp [unprofitableBE, hres, hpl]

/-- C4 witness: a concrete book with a Win, a Loss and two reclassified
breakevens. -/
theorem c4_witness :
    (calculate_stats
      [{ id := 1, user_id := 1, date := ("d"), pair_traded := ("A"), stop_loss := 10,
         take_profit := 20, result := ("Win"), screenshot_id := none, notes := ("n"),
         profit_loss := some 20 },
       { id := 2, user_id := 1, date := ("d"), pair_traded := ("A"), stop_loss := 10,
         take_profit := 20, result := ("Loss"), screenshot_id := none, notes := ("n"),
         profit_loss := some (-10) },
       { id := 3, user_id := 1, date := ("d"), pair_traded := ("A"), stop_loss := 10,
         take_profit := 20, result := ("Breakeven"), screenshot_id := none, notes := ("n"),
         profit_loss := some 5 },
       { id := 4, user_id := 1, date := ("d"), pair_traded := ("A"), stop_loss := 10,
         take_profit := 20, result := ("Breakeven"), screenshot_id := none, notes := ("n"),
         profit_loss := some (-5) }]).avg_win =
      spec_avg_win
      [{ id := 1, user_id := 1, date := ("d"), pair_traded := ("A"), stop_loss := 10,
         take_profit := 20, result := ("Win"), screenshot_id := none, notes := ("n"),
         profit_loss := some 20 },
       { id := 2, user_id := 1, date := ("d"), pair_traded := ("A"), stop_loss := 10,
         take_profit := 20, result := ("Loss"), screenshot_id := none, notes := ("n"),
         profit_loss := some (-10) },
       { id := 3, user_id := 1, date := ("d"), pair_traded := ("A"), stop_loss := 10,
         take_profit := 20, result := ("Breakeven"), screenshot_id := none, notes := ("n"),
         profit_loss := some 5 },
       { id := 4, user_id := 1, date := ("d"), pair_traded := ("A"), stop_loss := 10,
         take_profit := 20, result := ("Breakeven"), screenshot_id := none, notes := ("n"),
         profit_loss := some (-5) }] := by
  have h := c4_avg_win_loss
    [{ id := 1, user_id := 1, date := ("d"), pair_traded := ("A"), stop_loss := 10,
       take_profit := 20, result := ("Win"), screenshot_id := none, notes := ("n"),
       profit_loss := some 20 },
     { id := 2, user_id := 1, date := ("d"), pair_traded := ("A"), stop_loss := 10,
       take_profit := 20, result := ("Loss"), screenshot_id := none, notes := ("n"),
       profit_loss := some (-10) },
     { id := 3, user_id := 1, date := ("d"), pair_traded := ("A"), stop_loss := 10,
       take_profit := 20, result := ("Breakeven"), screenshot_id := none, notes := ("n"),
       profit_loss := some 5 },
     { id := 4, user_id := 1, date := ("d"), pair_traded := ("A"), stop_loss := 10,
       take_profit := 20, result := ("Breakeven"), screenshot_id := none, notes := ("n"),
       profit_loss := some (-5) }]
    (by decide) (by decide) (by decide)
  exact h.1

/-- C3 witness: the guards at the empty trade set. -/
theorem c3_witness :
    win_rate [] = 0 ∧ risk_reward_ratio [] = 0 ∧ avg_win [] = 0 := by
  refine ⟨(((c3_total_no_div_by_zero).2 []).1 (by decide)).1,
    ((c3_total_no_div_by_zero).2 []).2.1 (by decide),
    ((c3_total_no_div_by_zero).2 []).2.2.2.1 (by decide)⟩

/-- C5: at the registration AGE step, a freeform input that does not
parse as a (Python int) number changes nothing at all — the conversation
record still holds AGE with the same payload and every User field is
untouched — while a parsing input advances the step to TRADING_YEARS and
stores the age. -/
theorem c5_age_step (today : String) (db : Db) (tid : Int) (u : UserRec)
    (cs : UserStateRec) (txt : String)
    (hu : db.users.find? (fun x => x.telegram_id == tid) = some u)
    (hs : get_user_state db u.id = some cs)
    (hstate : cs.state = REGISTRATION_STATES.AGE) :
    (pyParseInt txt = none →
       (message_handler today db tid { text := some txt }).1 = db) ∧
    (∀ n, pyParseInt txt = some n →
       get_user_state (message_handler today db tid { text := some txt }).1 u.id
         = some { cs with state := REGISTRATION_STATES.TRADING_YEARS } ∧
       (message_handler today db tid { text := some txt }).1.users.find?
           (fun x => x.telegram_id == tid) = some { u with age := some n }) := by
  constructor
  · intro hparse
    simp [message_handler, get_or_create_user, hu, hs, hstate, hparse,
      REGISTRATION_STATES.AGE, REGISTRATION_STATES.FULL_NAME]
  · intro n hparse
    have hpcs : (cs.user_id == u.id) = true := by
      have h2 := List.find?_some hs
      simpa using h2
    have hpu : (u.telegram_id == tid) = true := by
      have h2 := List.find?_some hu
      simpa using h2
    have key : (message_handler today db tid { text := some txt }).1 =
        set_user_state (updateUser db tid (fun v => { v with age := some n })) u.id
          REGISTRATION_STATES.TRADING_YEARS none := by
      simp [message_handler, get_or_create_user, hu, hs, hstate, hparse,
        REGISTRATION_STATES.AGE, REGISTRATION_STATES.FULL_NAME]
    have hs1 : (updateUser db tid (fun v => { v with age := some n })).states.find?
        (fun s => s.user_id == u.id) = some cs := hs
    constructor
    · rw [key]
      show (set_user_state _ u.id _ none).states.find? (fun s => s.user_id == u.id) = _
      simp only [set_user_state, hs1]
      exact find?_updateFirst _ _ hs1 hpcs
    · rw [key]
      have husers : (set_user_state (updateUser db tid (fun v => { v with age := some n }))
          u.id REGISTRATION_STATES.TRADING_YEARS none).users
          = updateFirst (fun x => x.telegram_id == tid) (fun v => { v with age := some n })
              db.users := by
        simp only [set_user_state, hs1]
        rfl
      rw [husers]
      exact find?_updateFirst _ _ hu hpu

/-- C5 witness: "not a number" leaves the store untouched at AGE, "30"
advances to TRADING_YEARS. -/
theorem c5_witness :
    (message_handler ("2026-01-01") wDbAge 7 { text := some ("not a number") }).1 = wDbAge ∧
    get_user_state (message_handler ("2026-01-01") wDbAge 7 { text := some ("30") }).1 1
      = some { user_id := 1, state := ("registration_trading_years") } := by
  constructor
  · exact (c5_age_step ("2026-01-01") wDbAge 7 wUser1
      { user_id := 1, state := ("registration_age") }
      ("not a number") (by decide) (by decide) (by decide)).1 (by decide)
  · exact ((c5_age_step ("2026-01-01") wDbAge 7 wUser1
      { user_id := 1, state := ("registration_age") }
      ("30") (by decide) (by decide) (by decide)).2 30 (by decide)).1

lemma get_user_state_set_some {db : Db} {uid : Nat} {cs : UserStateRec}
    (st : String) (d : StateData) (hs : get_user_state db uid = some cs) :
    get_user_state (set_user_state db uid st (some d)) uid
      = some { cs with state := st, data := some d } := by
  have hs' : db.states.find? (fun s => s.user_id == uid) = some cs := hs
  have hpcs : (cs.user_id == uid) = true := by
    have h2 := List.find?_some hs'
    simpa using h2
  show (set_user_state db uid st (some d)).states.find? (fun s => s.user_id == uid) = _
  simp only [set_user_state, hs']
  exact find?_updateFirst _ _ hs' hpcs

lemma get_user_state_set_none {db : Db} {uid : Nat} {cs : UserStateRec}
    (st : String) (hs : get_user_state db uid = some cs) :
    get_user_state (set_user_state db uid st none) uid = some { cs with state := st } := by
  have hs' : db.states.find? (fun s => s.user_id == uid) = some cs := hs
  have hpcs : (cs.user_id == uid) = true := by
    have h2 := List.find?_some hs'
    simpa using h2
  show (set_user_state db uid st none).states.find? (fun s => s.user_id == uid) = _
  simp only [set_user_state, hs']
  exact find?_updateFirst _ _ hs' hpcs

/-- C7 counterexample: at the SL step the non-positive numeric input "-5"
does not re-prompt on the same step — the flow advances to TP and stores
the negative value −5 verbatim, against the claim that only positive
numbers are accepted and stored as positive magnitudes. -/
theorem c7_counterexample :
    ((get_user_state (message_handler ("2025-05-01") wDbSL 7
        { text := some ("-5") }).1 1).map (fun s => s.state)
      = some JOURNAL_STATES.TP) ∧
    JOURNAL_STATES.TP ≠ JOURNAL_STATES.SL ∧
    ((get_user_state (message_handler ("2025-05-01") wDbSL 7
        { text := some ("-5") }).1 1).bind (fun s => s.get_data.stop_loss)
      = some (-5)) ∧
    ¬(0 < (-5 : ℚ)) := by
  refine ⟨by decide, by decide, by decide, by decide⟩

/-- C7 amended: the SL and TP steps accept any input that Python float()
parses — including zero and negatives — store the parsed value verbatim
and advance (SL to TP, TP to RESULT); only a non-numeric input leaves the
user on the same step with everything unchanged. -/
theorem c7_sl_tp_amended (today : String) (db : Db) (tid : Int) (u : UserRec)
    (cs : UserStateRec) (txt : String)
    (hu : db.users.find? (fun x => x.telegram_id == tid) = some u)
    (hs : get_user_state db u.id = some cs) :
    (cs.state = JOURNAL_STATES.SL →
      (pyParseFloat txt = none →
        (message_handler today db tid { text := some txt }).1 = db) ∧
      (∀ v, pyParseFloat txt = some v →
        get_user_state (message_handler today db tid { text := some txt }).1 u.id
          = some { cs with state := JOURNAL_STATES.TP, data := some { cs.get_data with stop_loss := some v } })) ∧
    (cs.state = JOURNAL_STATES.TP →
      (pyParseFloat txt = none →
        (message_handler today db tid { text := some txt }).1 = db) ∧
      (∀ v, pyParseFloat txt = some v →
        get_user_state (message_handler today db tid { text := some txt }).1 u.id
          = some { cs with state := JOURNAL_STATES.RESULT, data := some { cs.get_data with take_profit := some v } })) := by
  constructor
  · intro hstate
    constructor
    · intro hparse
      simp [message_handler, get_or_create_user, hu, hs, hstate, hparse,
        REGISTRATION_STATES.FULL_NAME, REGISTRATION_STATES.AGE,
        REGISTRATION_STATES.TRADING_YEARS, REGISTRATION_STATES.PROFIT_TARGET,
        REGISTRATION_STATES.INITIAL_BALANCE, JOURNAL_STATES.PAIR, JOURNAL_STATES.SL]
    · intro v hparse
      have key : (message_handler today db tid { text := some txt }).1 =
          set_user_state db u.id JOURNAL_STATES.TP
            (some { cs.get_data with stop_loss := some v }) := by
        simp [message_handler, get_or_create_user, hu, hs, hstate, hparse,
          REGISTRATION_STATES.FULL_NAME, REGISTRATION_STATES.AGE,
          REGISTRATION_STATES.TRADING_YEARS, REGISTRATION_STATES.PROFIT_TARGET,
          REGISTRATION_STATES.INITIAL_BALANCE, JOURNAL_STATES.PAIR, JOURNAL_STATES.SL,
          JOURNAL_STATES.TP]
      rw [key]
      exact get_user_state_set_some _ _ hs
  · intro hstate
    constructor
    · intro hparse
      simp [message_handler, get_or_create_user, hu, hs, hstate, hparse,
        REGISTRATION_STATES.FULL_NAME, REGISTRATION_STATES.AGE,
        REGISTRATION_STATES.TRADING_YEARS, REGISTRATION_STATES.PROFIT_TARGET,
        REGISTRATION_STATES.INITIAL_BALANCE, JOURNAL_STATES.PAIR, JOURNAL_STATES.SL,
        JOURNAL_STATES.BREAKEVEN_AMOUNT, JOURNAL_STATES.TP]
    · intro v hparse
      have key : (message_handler today db tid { text := some txt }).1 =
          set_user_state db u.id JOURNAL_STATES.RESULT
            (some { cs.get_data with take_profit := some v }) := by
        simp [message_handler, get_or_create_user, hu, hs, hstate, hparse,
          REGISTRATION_STATES.FULL_NAME, REGISTRATION_STATES.AGE,
          REGISTRATION_STATES.TRADING_YEARS, REGISTRATION_STATES.PROFIT_TARGET,
          REGISTRATION_STATES.INITIAL_BALANCE, JOURNAL_STATES.PAIR, JOURNAL_STATES.SL,
          JOURNAL_STATES.BREAKEVEN_AMOUNT, JOURNAL_STATES.TP, JOURNAL_STATES.RESULT]
      rw [key]
      exact get_user_state_set_some _ _ hs

/-- C7 witness: at the SL step "10" parses and advances to TP storing 10;
"oops" re-prompts with no change. -/
theorem c7_witness :
    get_user_state (message_handler ("2025-05-01") wDbSL 7 { text := some ("10") }).1 1
      = some { user_id := 1, state := ("journal_tp"), data := some { wPairData with stop_loss := some 10 } } ∧
    (message_handler ("2025-05-01") wDbSL 7 { text := some ("oops") }).1 = wDbSL := by
  constructor
  · exact (((c7_sl_tp_amended ("2025-05-01") wDbSL 7 wUser1
      { user_id := 1, state := ("journal_sl"), data := some wPairData }
      ("10") (by decide) (by decide)).1 (by decide)).2 10 (by decide))
  · exact (((c7_sl_tp_amended ("2025-05-01") wDbSL 7 wUser1
      { user_id := 1, state := ("journal_sl"), data := some wPairData }
      ("oops") (by decide) (by decide)).1 (by decide)).1 (by decide))

lemma apply_balance_some (p : ℚ) (u : UserRec) :
    (apply_balance (some p) u).current_balance
      = some (u.current_balance.getD (u.initial_balance.getD 10000) + p) := by
  rcases hc : u.current_balance with _ | c <;> rcases hi : u.initial_balance with _ | b <;>
    simp [apply_balance, hc, hi]

lemma apply_balance_telegram_id (p? : Option ℚ) (u : UserRec) :
    (apply_balance p? u).telegram_id = u.telegram_id := by
  rcases p? with _ | p <;>
    rcases hc : u.current_balance with _ | c <;>
    rcases hi : u.initial_balance with _ | b <;>
    simp [apply_balance, hc, hi]

lemma journal_commit (today : String) (db : Db) (tid : Int) (u : UserRec)
    (cs : UserStateRec) (txt : String) (plv : ℚ)
    (hu : db.users.find? (fun x => x.telegram_id == tid) = some u)
    (hs : get_user_state db u.id = some cs)
    (hstate : cs.state = JOURNAL_STATES.NOTES)
    (huniq : statesUnique db)
    (htxt : ¬pyStrip txt = [])
    (hpl : derive_profit_loss { cs.get_data with notes := some txt } = some plv) :
    commitOutcome today db tid u cs txt plv := by
  have hpu : (u.telegram_id == tid) = true := by
    have h2 := List.find?_some hu
    simpa using h2
  have key : (message_handler today db tid { text := some txt }).1 =
      clear_user_state
        (updateUser
          { db with trades := db.trades ++ [build_trade today db.next_trade_id u.id { cs.get_data with notes := some txt } (some plv)], next_trade_id := db.next_trade_id + 1 }
          tid (apply_balance (some plv)))
        u.id := by
    simp [message_handler, get_or_create_user, hu, hs, hstate, htxt, hpl,
      REGISTRATION_STATES.FULL_NAME, REGISTRATION_STATES.AGE,
      REGISTRATION_STATES.TRADING_YEARS, REGISTRATION_STATES.PROFIT_TARGET,
      REGISTRATION_STATES.INITIAL_BALANCE, JOURNAL_STATES.PAIR, JOURNAL_STATES.SL,
      JOURNAL_STATES.BREAKEVEN_AMOUNT, JOURNAL_STATES.TP, JOURNAL_STATES.SCREENSHOT,
      JOURNAL_STATES.NOTES]
  refine ⟨?_, rfl, rfl, ?_, apply_balance_some plv u, ?_⟩
  · rw [key]
    rfl
  · rw [key]
    show (updateUser _ tid (apply_balance (some plv))).users.find? _ = _
    refine find?_updateFirst _ _ hu ?_
    rw [apply_balance_telegram_id]
    exact hpu
  · rw [key]
    exact get_user_state_clear_of_unique huniq

/-- C2: at the commit of the Journaling flow the created Trade's
profit_loss is +take_profit for a Win, −stop_loss for a Loss and the
collected signed breakeven amount for a Breakeven, and the user's
current_balance after the commit equals its pre-trade value (initialized
from initial_balance, or the documented 10000 default, when absent) plus
exactly that profit_loss; the state is then cleared. -/
theorem c2_journal_round_trip (today : String) (db : Db) (tid : Int) (u : UserRec)
    (cs : UserStateRec) (txt : String)
    (hu : db.users.find? (fun x => x.telegram_id == tid) = some u)
    (hs : get_user_state db u.id = some cs)
    (hstate : cs.state = JOURNAL_STATES.NOTES)
    (huniq : statesUnique db)
    (htxt : ¬pyStrip txt = []) :
    (∀ tp, cs.get_data.result = some ("Win") → cs.get_data.take_profit = some tp →
       commitOutcome today db tid u cs txt tp) ∧
    (∀ sl, cs.get_data.result = some ("Loss") → cs.get_data.stop_loss = some sl →
       commitOutcome today db tid u cs txt (-sl)) ∧
    (∀ a, cs.get_data.result = some ("Breakeven") → cs.get_data.breakeven_amount = some a →
       commitOutcome today db tid u cs txt a) := by
  refine ⟨?_, ?_, ?_⟩
  · intro tp hres htp
    refine journal_commit today db tid u cs txt tp hu hs hstate huniq htxt ?_
    simp [derive_profit_loss, hres, htp]
  · intro sl hres hsl
    refine journal_commit today db tid u cs txt (-sl) hu hs hstate huniq htxt ?_
    simp [derive_profit_loss, hres, hsl]
  · intro a hres hbe
    refine journal_commit today db tid u cs txt a hu hs hstate huniq htxt ?_
    simp [derive_profit_loss, hres, hbe]

/-- C2 witness: the flow SL=10, TP=20, RESULT=Win, SCREENSHOT=skip,
NOTES=test commits a trade with P/L +20 and moves the balance from 1000
to 1020. -/
theorem c2_witness :
    commitOutcome ("2025-05-01") wDbNotes 7 wUser1
      { user_id := 1, state := ("journal_notes"), data := some wWinData } ("test") 20 ∧
    (apply_balance (some 20) wUser1).current_balance = some 1020 := by
  constructor
  · exact (c2_journal_round_trip ("2025-05-01") wDbNotes 7 wUser1
      { user_id := 1, state := ("journal_notes"), data := some wWinData } ("test")
      (by decide) (by decide) (by decide) (by decide) (by decide)).1 20 (by decide) (by decide)
  · decide

/-- C10: a Journaling commit whose payload says Breakeven but carries no
breakeven_amount produces a trade whose profit_loss is exactly 0 (not
null), and a defined current_balance is unchanged by the commit. -/
theorem c10_breakeven_default_zero (today : String) (db : Db) (tid : Int) (u : UserRec)
    (cs : UserStateRec) (txt : String) (b : ℚ)
    (hu : db.users.find? (fun x => x.telegram_id == tid) = some u)
    (hs : get_user_state db u.id = some cs)
    (hstate : cs.state = JOURNAL_STATES.NOTES)
    (huniq : statesUnique db)
    (htxt : ¬pyStrip txt = [])
    (hres : cs.get_data.result = some ("Breakeven"))
    (hbe : cs.get_data.breakeven_amount = none)
    (hb : u.current_balance = some b) :
    commitOutcome today db tid u cs txt 0 ∧
    (apply_balance (some 0) u).current_balance = some b := by
  have h := journal_commit today db tid u cs txt 0 hu hs hstate huniq htxt
    (by simp [derive_profit_loss, hres, hbe])
  refine ⟨h, ?_⟩
  rw [apply_balance_some]
  simp [hb]

/-- C10 witness: the bypassed-breakeven commit at a concrete store: P/L
is exactly 0 and the balance stays 1000. -/
theorem c10_witness :
    commitOutcome ("2025-05-01") wDbNotesBE 7 wUser1
      { user_id := 1, state := ("journal_notes"), data := some wBEData } ("test") 0 ∧
    (apply_balance (some 0) wUser1).current_balance = some 1000 := by
  exact c10_breakeven_default_zero ("2025-05-01") wDbNotesBE 7 wUser1
    { user_id := 1, state := ("journal_notes"), data := some wBEData } ("test") 1000
    (by decide) (by decide) (by decide) (by decide) (by decide) (by decide) (by decide)
    (by decide)

/-- C8: entering the Delete flow's id step with an owned trade id only
prompts — the trade list is untouched and the conversation state is
cleared to idle; a subsequent cancel confirmation mutates nothing, and
the trade is removed exactly by the explicit yes confirmation. -/
theorem c8_delete_requires_confirmation (today : String) (db : Db) (tid : Int)
    (u : UserRec) (cs : UserStateRec) (txt : String) (n : Int) (T : Trade)
    (hu : db.users.find? (fun x => x.telegram_id == tid) = some u)
    (hs : get_user_state db u.id = some cs)
    (hstate : cs.state = ("delete_trade_id"))
    (huniq : statesUnique db)
    (hparse : pyParseInt txt = some n)
    (hT : find_owned_trade db n u.id = some T) :
    ((message_handler today db tid { text := some txt }).1.trades = db.trades ∧
     get_user_state (message_handler today db tid { text := some txt }).1 u.id = none) ∧
    (∀ cd, pyStartsWith cd ("cancel_delete_") = true →
       pyStartsWith cd ("confirm_delete_") = false →
       (button_callback (message_handler today db tid { text := some txt }).1 tid cd).1
         = (message_handler today db tid { text := some txt }).1) ∧
    (∀ cd, pyStartsWith cd ("confirm_delete_") = true →
       pyParseInt (pyReplace cd ("confirm_delete_") ("")) = some n →
       (button_callback (message_handler today db tid { text := some txt }).1 tid cd).1.trades
         = removeFirst (fun t => (t.id : Int) == n && t.user_id == u.id) db.trades) := by
  have key : (message_handler today db tid { text := some txt }).1
      = clear_user_state db u.id := by
    simp [message_handler, get_or_create_user, hu, hs, hstate, hparse, hT,
      REGISTRATION_STATES.FULL_NAME, REGISTRATION_STATES.AGE,
      REGISTRATION_STATES.TRADING_YEARS, REGISTRATION_STATES.PROFIT_TARGET,
      REGISTRATION_STATES.INITIAL_BALANCE]
  have hcleared : get_user_state (clear_user_state db u.id) u.id = none :=
    get_user_state_clear_of_unique huniq
  have hu1 : (clear_user_state db u.id).users.find? (fun x => x.telegram_id == tid)
      = some u := hu
  refine ⟨⟨by rw [key]; rfl, by rw [key]; exact hcleared⟩, ?_, ?_⟩
  · intro cd hcan hnotconf
    have h1 : cd ≠ ("trades_prev_page") := by
      rintro rfl
      exact absurd hcan (by decide)
    have h2 : cd ≠ ("trades_next_page") := by
      rintro rfl
      exact absurd hcan (by decide)
    have h3 : cd ≠ ("view_trade") := by
      rintro rfl
      exact absurd hcan (by decide)
    have h4 : cd ≠ ("edit_trade") := by
      rintro rfl
      exact absurd hcan (by decide)
    have h5 : cd ≠ ("delete_trade") := by
      rintro rfl
      exact absurd hcan (by decide)
    rw [key]
    cases hp2 : pyParseInt (pyReplace cd ("cancel_delete_") ("")) with
    | none =>
      simp [button_callback, get_or_create_user, hu1, hcleared, button_data_dispatch,
        h1, h2, h3, h4, h5, hnotconf, hcan, hp2]
    | some m =>
      simp [button_callback, get_or_create_user, hu1, hcleared, button_data_dispatch,
        h1, h2, h3, h4, h5, hnotconf, hcan, hp2]
  · intro cd hconf hp2
    have h1 : cd ≠ ("trades_prev_page") := by
      rintro rfl
      exact absurd hconf (by decide)
    have h2 : cd ≠ ("trades_next_page") := by
      rintro rfl
      exact absurd hconf (by decide)
    have h3 : cd ≠ ("view_trade") := by
      rintro rfl
      exact absurd hconf (by decide)
    have h4 : cd ≠ ("edit_trade") := by
      rintro rfl
      exact absurd hconf (by decide)
    have h5 : cd ≠ ("delete_trade") := by
      rintro rfl
      exact absurd hconf (by decide)
    have hT1 : find_owned_trade (clear_user_state db u.id) n u.id = some T := hT
    rw [key]
    simp [button_callback, get_or_create_user, hu1, hcleared, button_data_dispatch,
      h1, h2, h3, h4, h5, hconf, hp2, hT1]
    rfl

/-- C8 witness: entering "3" at the delete-id step then pressing the
cancel button leaves trade 3 in place with the state idle. -/
theorem c8_witness :
    (button_callback (message_handler ("2025-05-01") wDbDel 7 { text := some ("3") }).1 7
        ("cancel_delete_3")).1
      = (message_handler ("2025-05-01") wDbDel 7 { text := some ("3") }).1 ∧
    (message_handler ("2025-05-01") wDbDel 7 { text := some ("3") }).1.trades
      = [wTrade3] := by
  have h := c8_delete_requires_confirmation ("2025-05-01") wDbDel 7 wUser1
    { user_id := 1, state := ("delete_trade_id") } ("3") 3 wTrade3
    (by decide) (by decide) (by decide) (by decide) (by decide) (by decide)
  exact ⟨h.2.1 ("cancel_delete_3") (by decide) (by decide), h.1.1⟩

/-- C9: for a trade id owned by another user, the View, Edit and Delete
id steps and the delete-confirmation button all look the trade up by id
and requesting user together, mutate no Trade or User record, send a
not-found/not-owned message, and leave the flow idle. -/
theorem c9_cross_user_ownership (today : String) (db : Db) (tidA : Int)
    (uA uB : UserRec) (T : Trade) (n : Int) (txt : String)
    (huA : db.users.find? (fun x => x.telegram_id == tidA) = some uA)
    (huniq : statesUnique db)
    (hT : T ∈ db.trades) (hTid : (T.id : Int) = n) (hTowner : T.user_id = uB.id)
    (hAB : uA.id ≠ uB.id)
    (hid : ∀ t ∈ db.trades, (t.id : Int) = n → t.user_id = uB.id)
    (hparse : pyParseInt txt = some n) :
    (∀ cs, get_user_state db uA.id = some cs →
       (cs.state = ("view_trade_id") ∨ cs.state = ("edit_trade_id") ∨
        cs.state = ("delete_trade_id")) →
       (message_handler today db tidA { text := some txt }).1.trades = db.trades ∧
       (message_handler today db tidA { text := some txt }).1.users = db.users ∧
       get_user_state (message_handler today db tidA { text := some txt }).1 uA.id = none ∧
       (message_handler today db tidA { text := some txt }).2 = [Reply.tradeNotFound n]) ∧
    (get_user_state db uA.id = none →
       ∀ cd, pyStartsWith cd ("confirm_delete_") = true →
         pyParseInt (pyReplace cd ("confirm_delete_") ("")) = some n →
         (button_callback db tidA cd).1 = db ∧
         (button_callback db tidA cd).2 = [Reply.tradeNotFound n]) := by
  have hnone : find_owned_trade db n uA.id = none := by
    refine List.find?_eq_none.mpr (fun t ht hp => ?_)
    rcases Bool.and_eq_true_iff.mp hp with ⟨hpid, hpuser⟩
    have h1 : (t.id : Int) = n := by
      simpa using hpid
    have h2 : t.user_id = uA.id := by
      simpa using hpuser
    exact hAB (h2.symm.trans (hid t ht h1))
  constructor
  · intro cs hs hstate
    have hcleared : get_user_state (clear_user_state db uA.id) uA.id = none :=
      get_user_state_clear_of_unique huniq
    rcases hstate with hstate | hstate | hstate <;>
      (have key : (message_handler today db tidA { text := some txt })
          = (clear_user_state db uA.id, [Reply.tradeNotFound n]) := by
        simp [message_handler, get_or_create_user, huA, hs, hstate, hparse, hnone,
          REGISTRATION_STATES.FULL_NAME, REGISTRATION_STATES.AGE,
          REGISTRATION_STATES.TRADING_YEARS, REGISTRATION_STATES.PROFIT_TARGET,
          REGISTRATION_STATES.INITIAL_BALANCE]) <;>
      exact ⟨by rw [key]; rfl, by rw [key]; rfl, by rw [key]; exact hcleared, by rw [key]⟩
  · intro hsA cd hconf hp2
    have h1 : cd ≠ ("trades_prev_page") := by
      rintro rfl
      exact absurd hconf (by decide)
    have h2 : cd ≠ ("trades_next_page") := by
      rintro rfl
      exact absurd hconf (by decide)
    have h3 : cd ≠ ("view_trade") := by
      rintro rfl
      exact absurd hconf (by decide)
    have h4 : cd ≠ ("edit_trade") := by
      rintro rfl
      exact absurd hconf (by decide)
    have h5 : cd ≠ ("delete_trade") := by
      rintro rfl
      exact absurd hconf (by decide)
    constructor <;>
      simp [button_callback, get_or_create_user, huA, hsA, button_data_dispatch,
        h1, h2, h3, h4, h5, hconf, hp2, hnone]

/-- C9 witness: user 1 asking to view user 2's trade 9 gets a not-found
reply, no record changes, and an idle state. -/
theorem c9_witness :
    (message_handler ("2025-05-01") wDbCross 7 { text := some ("9") }).1.trades
      = [wTradeB] ∧
    (message_handler ("2025-05-01") wDbCross 7 { text := some ("9") }).2
      = [Reply.tradeNotFound 9] ∧
    get_user_state (message_handler ("2025-05-01") wDbCross 7 { text := some ("9") }).1 1
      = none := by
  have h := (c9_cross_user_ownership ("2025-05-01") wDbCross 7 wUser1 wUser2 wTradeB 9
    ("9") (by decide) (by decide) (by decide) (by decide) (by decide) (by decide)
    (by decide) (by decide)).1
    { user_id := 1, state := ("view_trade_id") } (by decide) (Or.inl (by decide))
  exact ⟨h.1, h.2.2.2, h.2.2.1⟩

end TradingJournal
